import Mathlib

/-!
Shallow embedding of the reconciliation engine of `indeciBotDjango`
(`core/services/CruceService.py` and the transaction model methods of
`core/models.py`), together with theorems settling the specification
claims about it.

Python strings are modelled as `String` (lists of characters); Python
`dict` comprehensions and `.get` are modelled by last-write-wins lookup
over the source list; Python exceptions (`IndexError`, `ValueError`)
are modelled with `Except`.
-/

namespace IndeciBot

/-! ### String primitives used by the Python code -/

/-- `isPref pat l` : `pat` is a prefix of `l` (character lists). -/
def isPref : List Char → List Char → Bool
  | [], _ => true
  | _ :: _, [] => false
  | a :: as, b :: bs => a == b && isPref as bs

/-- `hasSubL hay pat` : Python's `pat in hay` substring test on character
lists. -/
def hasSubL (hay pat : List Char) : Bool :=
  match hay with
  | [] => pat.isEmpty
  | _ :: t => isPref pat hay || hasSubL t pat

/-- Python's `needle in hay` substring containment on strings. -/
def hasSub (hay needle : String) : Bool :=
  hasSubL hay.data needle.data

/-- ASCII lower-casing of one character, as Python's `str.lower` acts on
the ASCII range (the status/seller vocabularies used here are ASCII). -/
def pyLowerChar (c : Char) : Char :=
  if 'A' ≤ c ∧ c ≤ 'Z' then Char.ofNat (c.toNat + 32) else c

/-- Python's `str.lower` (ASCII range). -/
def pyLower (s : String) : String :=
  ⟨s.data.map pyLowerChar⟩

/-- Python's `str.split(sep)` for a one-character separator: splits at every
occurrence of `c`, keeping empty pieces, always returning at least one
piece. -/
def splitOnChar (c : Char) : List Char → List (List Char)
  | [] => [[]]
  | a :: t =>
    if a == c then [] :: splitOnChar c t
    else
      match splitOnChar c t with
      | [] => [[a]]
      | h :: r => (a :: h) :: r

/-- Value of a list of decimal digits, most significant first. -/
def digitsVal (l : List Char) : Nat :=
  l.foldl (fun acc c => acc * 10 + (c.toNat - '0'.toNat)) 0

/-- Python's `int(s)` on the strings that can reach it here (pieces of a
`split('-')`, so no `'-'` sign): strips ASCII spaces, allows one leading
`'+'`, then requires a nonempty run of ASCII digits.  `none` models the
`ValueError`.  (Unicode digits and `_` grouping are not modelled; the
identifiers joined here are ASCII.) -/
def pyInt (s : List Char) : Option Nat :=
  let t := ((s.dropWhile (· == ' ')).reverse.dropWhile (· == ' ')).reverse
  let t := if t.headD ' ' == '+' then t.tail else t
  if t ≠ [] ∧ t.all (·.isDigit) then some (digitsVal t) else none

/-- Python's `s.replace('-1', '-2')` : replaces every (leftmost,
non-overlapping) occurrence of `"-1"` by `"-2"`. -/
def reemplazar_1_2 : List Char → List Char
  | [] => []
  | [a] => [a]
  | a :: b :: t =>
    if a == '-' && b == '1' then '-' :: '2' :: reemplazar_1_2 t
    else a :: reemplazar_1_2 (b :: t)

/-- String form of `reemplazar_1_2` : Python's `s.replace('-1', '-2')`. -/
def pyReplace12 (s : String) : String :=
  ⟨reemplazar_1_2 s.data⟩

/-! ### Dictionary model

A Python dict comprehension `{f(t): t for t in l}` keeps, for each key, the
last element of `l` with that key; `dictGet` models `dict.get(key)` under
that construction. -/

/-- `{f(t): t for t in l}.get(k)` : the last element of `l` whose key is
`k`, if any. -/
def dictGet {α : Type} (k : String) (f : α → String) (l : List α) : Option α :=
  (l.filter (fun t => f t == k)).getLast?

/-- The distinct elements of `l` in order of first appearance: models
iterating over `set(keys)` (the iteration order of a Python set is
unspecified; any fixed order is a faithful choice for per-row facts). -/
def dedupAux (seen : List String) : List String → List String
  | [] => []
  | a :: t => if a ∈ seen then dedupAux seen t else a :: dedupAux (a :: seen) t

/-- Distinct keys of a list, first-appearance order. -/
def dedupKeys (l : List String) : List String :=
  dedupAux [] l

/-- A Python `for` loop that builds a result list and lets an exception
escape: stops at the first raised error. -/
def mapExcept {ε α β : Type} (f : α → Except ε β) : List α → Except ε (List β)
  | [] => .ok []
  | a :: t =>
    match f a with
    | .error e => .error e
    | .ok b =>
      match mapExcept f t with
      | .error e => .error e
      | .ok bs => .ok (b :: bs)

/-! ### Lemmas about the string primitives -/

theorem isPref_iff (p l : List Char) : isPref p l = true ↔ ∃ r, l = p ++ r := by
  induction p generalizing l with
  | nil => simp [isPref]
  | cons a as ih =>
    cases l with
    | nil =>
      simp only [isPref, List.cons_append]
      constructor
      · intro h; cases h
      · rintro ⟨r, h⟩; cases h
    | cons b bs =>
      simp only [isPref, Bool.and_eq_true, beq_iff_eq]
      rw [ih]
      constructor
      · rintro ⟨rfl, r, rfl⟩; exact ⟨r, rfl⟩
      · rintro ⟨r, h⟩
        injection h with h1 h2
        exact ⟨h1.symm, r, h2⟩

theorem hasSubL_iff (hay pat : List Char) :
    hasSubL hay pat = true ↔ ∃ l r, hay = l ++ pat ++ r := by
  induction hay with
  | nil =>
    simp only [hasSubL, List.isEmpty_iff]
    constructor
    · rintro rfl; exact ⟨[], [], rfl⟩
    · rintro ⟨l, r, h⟩
      cases l with
      | nil =>
        cases pat with
        | nil => rfl
        | cons c cs => cases h
      | cons c cs => cases h
  | cons a t ih =>
    simp only [hasSubL, Bool.or_eq_true, isPref_iff, ih]
    constructor
    · rintro (⟨r, h⟩ | ⟨l, r, h⟩)
      · exact ⟨[], r, by simpa using h⟩
      · exact ⟨a :: l, r, by simp [h]⟩
    · rintro ⟨l, r, h⟩
      cases l with
      | nil => exact Or.inl ⟨r, by simpa using h⟩
      | cons b bs =>
        injection h with h1 h2
        exact Or.inr ⟨bs, r, h2⟩

/-- If `"-1"` occurs nowhere in `l`, the replacement leaves `l` unchanged. -/
theorem reemplazar_1_2_of_not_hasSub (l : List Char)
    (h : hasSubL l ['-', '1'] = false) : reemplazar_1_2 l = l := by
  induction l with
  | nil => rfl
  | cons a t ih =>
    cases t with
    | nil => rfl
    | cons b u =>
      rw [hasSubL] at h
      simp only [Bool.or_eq_false_iff] at h
      obtain ⟨h1, h2⟩ := h
      have hab : ¬(a = '-' ∧ b = '1') := by
        rintro ⟨rfl, rfl⟩
        simp [isPref] at h1
      rw [reemplazar_1_2, if_neg, ih h2]
      intro hc
      exact hab (by simpa using hc)

/-! ### Data model (`core/models.py`)

Each structure keeps the fields the reconciliation engine reads; date
fields are abstracted to `Option Int` timestamps and unread scalar fields
(amounts, cards, store numbers, report foreign keys) are omitted. -/

/-- `TransaccionVtex` : an order-platform (VTEX) transaction record. -/
structure TransaccionVtex where
  numero_pedido : String
  numero_transaccion : String
  fecha_hora : Option Int
  medio_pago : String
  seller : String
  estado : String
  deriving Repr, DecidableEq

/-- `TransaccionPayway` : a payment-gateway transaction record. -/
structure TransaccionPayway where
  numero_transaccion : String
  estado : String
  deriving Repr, DecidableEq

/-- `TransaccionCDP` : a fulfillment (CDP) transaction record. -/
structure TransaccionCDP where
  numero_pedido : String
  estado : String
  deriving Repr, DecidableEq

/-- `TransaccionJanis` : a secondary-OMS (Janis) transaction record. -/
structure TransaccionJanis where
  numero_pedido : String
  fecha_entrega : Option Int
  estado : String
  deriving Repr, DecidableEq

/-- `TransaccionCDP.estados_entregados` : the "delivered" keyword set. -/
def TransaccionCDP.estados_entregados : List String :=
  ["finalizado", "disponible en drive", "disponible en sucursal",
   "disponible en sede", "pendiente de despacho", "pendiente de de envio a pup",
   "recepcion pendiente"]

/-- `TransaccionCDP.estado_entregado` :
`any(keyword.lower() in self.estado.lower() for keyword in self.estados_entregados)`. -/
def TransaccionCDP.estado_entregado (t : TransaccionCDP) : Bool :=
  TransaccionCDP.estados_entregados.any
    (fun keyword => hasSub (pyLower t.estado) (pyLower keyword))

/-- `TransaccionJanis.estados_entregado` : the "delivered" status set. -/
def TransaccionJanis.estados_entregado : List String :=
  ["delivered", "inDelivery", "readyForDelivery", "readyForInternalDistribution",
   "en auditoria", "procesandoPromociones"]

/-- `TransaccionJanis.estado_entregado` :
`any(e in self.estado for e in self.estados_entregado)` (case-sensitive
substring). -/
def TransaccionJanis.estado_entregado (t : TransaccionJanis) : Bool :=
  TransaccionJanis.estados_entregado.any (fun e => hasSub t.estado e)

/-- `TransaccionPayway.estados_no_entregados` : the "not captured" keyword
set. -/
def TransaccionPayway.estados_no_entregados : List String :=
  ["Pre autorizada", "Vencida"]

/-- `TransaccionPayway.estado_no_cobrado` :
`any(keyword in self.estado for keyword in self.estados_no_entregados)`
(substring containment, not equality). -/
def TransaccionPayway.estado_no_cobrado (t : TransaccionPayway) : Bool :=
  TransaccionPayway.estados_no_entregados.any (fun keyword => hasSub t.estado keyword)

/-- `TransaccionVtex.KEYWORDS_FOOD` : the grocery-seller keyword list. -/
def TransaccionVtex.KEYWORDS_FOOD : List String :=
  ["carrefour", "hiper", "maxi", "market", "express", "trelew"]

/-- `TransaccionVtex.pedido_electro` : `self.seller == "Hogar & Electro"`. -/
def TransaccionVtex.pedido_electro (t : TransaccionVtex) : Bool :=
  t.seller == "Hogar & Electro"

/-- `TransaccionVtex.pedido_food` :
`any(keyword.lower() in self.seller.lower() for keyword in KEYWORDS_FOOD)`. -/
def TransaccionVtex.pedido_food (t : TransaccionVtex) : Bool :=
  TransaccionVtex.KEYWORDS_FOOD.any
    (fun keyword => hasSub (pyLower t.seller) (pyLower keyword))

/-- `TransaccionVtex.pedido_marketplace` :
`not self.pedido_electro() and not self.pedido_food()`. -/
def TransaccionVtex.pedido_marketplace (t : TransaccionVtex) : Bool :=
  !t.pedido_electro && !t.pedido_food

/-! ### `CruceService` : key normalizer and classifier -/

/-- The Python exceptions that can escape the join. -/
inductive PyErr where
  | indexError
  | valueError
  deriving Repr, DecidableEq

/-- `CruceService.convertir_pedido_transaccion_payway` :
```
partes = pedido_vtex.split('-')
transaccion_payway = f"{partes[0]}-{int(partes[1])}"
```
`partes[1]` raises `IndexError` when there is no `'-'`; `int` raises
`ValueError` on a non-numeric suffix. -/
def convertir_pedido_transaccion_payway (pedido_vtex : String) :
    Except PyErr String :=
  let partes := splitOnChar '-' pedido_vtex.data
  match partes.get? 1 with
  | none => .error .indexError
  | some sufijo =>
    match pyInt sufijo with
    | none => .error .valueError
    | some n => .ok ⟨partes.headD [] ++ '-' :: (Nat.repr n).data⟩

/-- The guard of the MercadoPago branch of the classifier:
`vtex.medio_pago and "MercadoPagoPro" in vtex.medio_pago and not
(vtex.pedido_electro() or vtex.pedido_marketplace())`. -/
def condicion_mercadopago (vtex : TransaccionVtex) : Bool :=
  (vtex.medio_pago != "") && hasSub vtex.medio_pago "MercadoPagoPro" &&
    !(vtex.pedido_electro || vtex.pedido_marketplace)

/-- `CruceService.calcular_resultado_cruce` : the discrepancy classifier,
translated branch by branch from the source. -/
def calcular_resultado_cruce (vtex : Option TransaccionVtex)
    (payway : Option TransaccionPayway) (cdp : Option TransaccionCDP)
    (janis : Option TransaccionJanis) : String :=
  match vtex with
  | none => ""
  | some v =>
    if v.estado == "Verificando Fatura" then
      if (match payway with
          | some p => p.estado == "Pre autorizada"
          | none => false) then
        "Cobrar manualmente desde Payway, estado verificando factura en vtex"
      else
        "Levantar ticket a WebCenterpedido no existe en decidir"
    else
      let cdp_entregado := match cdp with
        | some c => c.estado_entregado
        | none => false
      let janis_entregado := match janis with
        | some j => j.estado_entregado
        | none => false
      let payway_no_cobrado := match payway with
        | some p => p.estado_no_cobrado
        | none => false
      let cdp_anulado := match cdp with
        | some c => c.estado == "Anulado sin factura"
        | none => false
      let janis_cancelado := match janis with
        | some j => j.estado == "canceled"
        | none => false
      if condicion_mercadopago v then
        if cdp_entregado || janis_entregado then
          if v.estado != "Faturado" then
            "Verificar, entregado pero no facturado"
          else ""
        else if cdp_anulado || janis_cancelado then
          if v.estado == "Pagamento Aprovado" then
            "Verificar, anulado pero no cancelado en vtex"
          else ""
        else ""
      else if v.pedido_food then
        if cdp_entregado || janis_entregado then
          if v.estado != "Faturado" then
            "Verificar, entregado pero no facturado"
          else if payway_no_cobrado then
            "Verificar, no cobrado en Payway"
          else ""
        else if cdp_anulado || janis_cancelado then
          if v.estado == "Pagamento Aprovado" then
            "Verificar, anulado pero no cancelado en vtex"
          else if (match payway with
                   | some p => p.estado == "Pre autorizada"
                   | none => false) then
            "Verificar, anulado pero preautorizado en payway"
          else ""
        else ""
      else if v.pedido_electro then
        if payway_no_cobrado then
          "Verificar, no cobrado en Payway"
        else if v.estado != "Faturado" && v.estado != "Cancelado" then
          "Verificar, no facturado"
        else ""
      else if v.pedido_marketplace then
        if v.estado != "Faturado" then
          "Avisar a marketplace"
        else ""
      else ""

/-! ### `CruceService.cruzar_transacciones` : the reconciliation join -/

/-- One cross-match row, the dict appended per iteration of the join loop. -/
structure Row where
  numero_pedido : String
  fecha_hora : Option Int
  fecha_entrega_janis : Option Int
  medio_pago : String
  seller : String
  estado_vtex : String
  estado_payway : String
  estado_payway_2 : String
  estado_cdp : String
  estado_janis : String
  resultado_cruce : String
  deriving Repr, DecidableEq

/-- The body of the join's `for pedido in todos_los_pedidos` loop:
index lookups, the Payway two-path match (primary key from the normalizer,
fallback key from the VTEX record's `numero_transaccion`, second record by
`key.replace('-1', '-2')`), the classifier call, and the emitted row.
The only statement that can raise is the key normalizer. -/
def procesarPedido (transacciones_vtex : List TransaccionVtex)
    (transacciones_payway : List TransaccionPayway)
    (transacciones_cdp : List TransaccionCDP)
    (transacciones_janis : List TransaccionJanis)
    (pedido : String) : Except PyErr Row :=
  let vtex := dictGet pedido TransaccionVtex.numero_pedido transacciones_vtex
  let cdp := dictGet ⟨(splitOnChar '-' pedido.data).headD []⟩
    TransaccionCDP.numero_pedido transacciones_cdp
  let janis := dictGet pedido TransaccionJanis.numero_pedido transacciones_janis
  match convertir_pedido_transaccion_payway pedido with
  | .error e => .error e
  | .ok pedido_convertido =>
    let parPayway :=
      match dictGet pedido_convertido TransaccionPayway.numero_transaccion
          transacciones_payway with
      | some p =>
        (some p,
         dictGet (pyReplace12 pedido_convertido)
           TransaccionPayway.numero_transaccion transacciones_payway)
      | none =>
        match vtex with
        | some v =>
          match dictGet v.numero_transaccion TransaccionPayway.numero_transaccion
              transacciones_payway with
          | some p =>
            (some p,
             dictGet (pyReplace12 v.numero_transaccion)
               TransaccionPayway.numero_transaccion transacciones_payway)
          | none => (none, none)
        | none => (none, none)
    let payway := parPayway.1
    let payway2 := parPayway.2
    .ok
      { numero_pedido := pedido
        fecha_hora := match vtex with | some v => v.fecha_hora | none => none
        fecha_entrega_janis :=
          match janis with | some j => j.fecha_entrega | none => none
        medio_pago := match vtex with | some v => v.medio_pago | none => "N/A"
        seller := match vtex with | some v => v.seller | none => "N/A"
        estado_vtex := match vtex with | some v => v.estado | none => "N/A"
        estado_payway := match payway with | some p => p.estado | none => "N/A"
        estado_payway_2 :=
          match payway2 with | some p => p.estado | none => "N/A"
        estado_cdp := match cdp with | some c => c.estado | none => "N/A"
        estado_janis := match janis with | some j => j.estado | none => "N/A"
        resultado_cruce := calcular_resultado_cruce vtex payway cdp janis }

/-- `CruceService.cruzar_transacciones` : the driving set is the key set of
the VTEX index (`set(vtex_por_pedido.keys())`); one row per distinct
`numero_pedido`, in a fixed enumeration order; an exception raised by any
iteration escapes the whole loop. -/
def cruzar_transacciones (transacciones_vtex : List TransaccionVtex)
    (transacciones_payway : List TransaccionPayway)
    (transacciones_cdp : List TransaccionCDP)
    (transacciones_janis : List TransaccionJanis) : Except PyErr (List Row) :=
  let todos_los_pedidos :=
    dedupKeys (transacciones_vtex.map TransaccionVtex.numero_pedido)
  mapExcept
    (procesarPedido transacciones_vtex transacciones_payway transacciones_cdp
      transacciones_janis)
    todos_los_pedidos

/-! ### `CruceService.generar_cruce` : run orchestration

The storage layer is abstracted: the run table is an association list from
run id to record, and each fallible storage/pipeline step is represented by
a flag saying whether it raises (`true` = the step raises an exception).
The function is total — its `Bool × _` result type is the embedding of the
policy that `generar_cruce` never lets an exception reach its caller. -/

/-- `Cruce.Estado` : lifecycle states of a run. -/
inductive Estado where
  | PENDIENTE
  | PROCESANDO
  | COMPLETADO
  | ERROR
  deriving Repr, DecidableEq

/-- The fields of a `Cruce` row the orchestrator touches. -/
structure CruceRec where
  estado : Estado
  fecha_realizado : Option Nat
  deriving Repr, DecidableEq

/-- The run table. -/
abbrev RunDB := List (Nat × CruceRec)

/-- `Cruce.objects.get(id=cruce_id)` without the exception: `none` models
`Cruce.DoesNotExist`. -/
def buscarCruce (db : RunDB) (cruce_id : Nat) : Option CruceRec :=
  (db.find? (fun p => p.1 == cruce_id)).map (·.2)

/-- `cruce.save()` : persists the in-memory record under its id. -/
def guardarCruce (db : RunDB) (cruce_id : Nat) (r : CruceRec) : RunDB :=
  db.map (fun p => if p.1 == cruce_id then (p.1, r) else p)

/-- The `except Exception` handler: sets the in-memory record's state to
ERROR and saves, best-effort — when that save itself raises
(`fallo_guardar_error = true`) the failure is swallowed (`except: pass`)
and the table is left as it was.  Returns `False` either way. -/
def manejarError (db : RunDB) (cruce_id : Nat) (r : CruceRec)
    (fallo_guardar_error : Bool) : Bool × RunDB :=
  if fallo_guardar_error then (false, db)
  else (false, guardarCruce db cruce_id { r with estado := .ERROR })

/-- `CruceService.generar_cruce`, control flow translated from the source:

* `fallo_buscar` : the run fetch raises something other than
  `Cruce.DoesNotExist` (storage failure); the generic handler then trips
  over the unbound local `cruce` and that secondary failure is swallowed,
  so the table is untouched.
* run id absent : `except Cruce.DoesNotExist` — log and return `False`.
* `fallo_guardar_procesando` : the PROCESANDO save raises.
* `fallo_cuerpo` : report loading, `cruzar_transacciones` or
  `guardar_transacciones_cruce` raises.
* `fallo_guardar_completado` : the final save raises (the in-memory record
  already carries COMPLETADO and today's date when the handler saves it
  with estado ERROR).
* success : save COMPLETADO with `fecha_realizado = hoy`, return `True`. -/
def generar_cruce (db : RunDB) (cruce_id : Nat) (hoy : Nat)
    (fallo_buscar fallo_guardar_procesando fallo_cuerpo
     fallo_guardar_completado fallo_guardar_error : Bool) : Bool × RunDB :=
  if fallo_buscar then (false, db)
  else
    match buscarCruce db cruce_id with
    | none => (false, db)
    | some r =>
      let r1 := { r with estado := .PROCESANDO }
      if fallo_guardar_procesando then
        manejarError db cruce_id r1 fallo_guardar_error
      else
        let db1 := guardarCruce db cruce_id r1
        if fallo_cuerpo then manejarError db1 cruce_id r1 fallo_guardar_error
        else
          let r2 := { r1 with estado := .COMPLETADO, fecha_realizado := some hoy }
          if fallo_guardar_completado then
            manejarError db1 cruce_id r2 fallo_guardar_error
          else (true, guardarCruce db1 cruce_id r2)

/-! ### Lemmas about the loop, dictionary and key helpers -/

theorem mapExcept_ok_mem {ε α β : Type} (f : α → Except ε β) :
    ∀ (l : List α) (bs : List β), mapExcept f l = .ok bs →
      ∀ b ∈ bs, ∃ a, a ∈ l ∧ f a = .ok b := by
  intro l
  induction l with
  | nil =>
    intro bs h b hb
    simp only [mapExcept] at h
    injection h with h
    subst h
    cases hb
  | cons a t ih =>
    intro bs h b hb
    rw [mapExcept] at h
    split at h
    · cases h
    · rename_i b0 hfa
      split at h
      · cases h
      · rename_i bs0 hmt
        injection h with h
        subst h
        rcases List.mem_cons.mp hb with rfl | hb2
        · exact ⟨a, List.mem_cons_self a t, hfa⟩
        · obtain ⟨a2, ha2, hfa2⟩ := ih bs0 hmt b hb2
          exact ⟨a2, List.mem_cons_of_mem a ha2, hfa2⟩

theorem mapExcept_error_of_mem {ε α β : Type} (f : α → Except ε β) :
    ∀ (l : List α) (a : α), a ∈ l → ∀ e, f a = .error e →
      ∃ e2, mapExcept f l = .error e2 := by
  intro l
  induction l with
  | nil => intro a ha; cases ha
  | cons x t ih =>
    intro a ha e hfa
    cases hfx : f x with
    | error e0 => exact ⟨e0, by simp [mapExcept, hfx]⟩
    | ok b =>
      rcases List.mem_cons.mp ha with rfl | ha2
      · rw [hfa] at hfx; cases hfx
      · obtain ⟨e2, h2⟩ := ih a ha2 e hfa
        exact ⟨e2, by simp [mapExcept, hfx, h2]⟩

theorem dedupAux_mem_iff (x : String) :
    ∀ (l seen : List String), x ∈ dedupAux seen l ↔ (x ∈ l ∧ x ∉ seen) := by
  intro l
  induction l with
  | nil => intro seen; simp [dedupAux]
  | cons a t ih =>
    intro seen
    rw [dedupAux]
    by_cases ha : a ∈ seen
    · rw [if_pos ha, ih]
      constructor
      · rintro ⟨hx, hns⟩
        exact ⟨List.mem_cons_of_mem a hx, hns⟩
      · rintro ⟨hx, hns⟩
        rcases List.mem_cons.mp hx with rfl | hx2
        · exact absurd ha hns
        · exact ⟨hx2, hns⟩
    · rw [if_neg ha]
      constructor
      · intro hx
        rcases List.mem_cons.mp hx with rfl | hx2
        · exact ⟨List.mem_cons_self x t, ha⟩
        · rw [ih] at hx2
          obtain ⟨h1, h2⟩ := hx2
          refine ⟨List.mem_cons_of_mem a h1, fun hs => h2 ?_⟩
          exact List.mem_cons_of_mem a hs
      · rintro ⟨hx, hns⟩
        by_cases hxa : x = a
        · subst hxa
          exact List.mem_cons_self x _
        · have hx2 : x ∈ t := by
            rcases List.mem_cons.mp hx with h | h
            · exact absurd h hxa
            · exact h
          refine List.mem_cons_of_mem a ?_
          rw [ih]
          refine ⟨hx2, fun hs => ?_⟩
          rcases List.mem_cons.mp hs with h | h
          · exact hxa h
          · exact hns h

theorem dedupKeys_mem_iff (x : String) (l : List String) :
    x ∈ dedupKeys l ↔ x ∈ l := by
  rw [dedupKeys, dedupAux_mem_iff]
  simp

theorem dictGet_some_of_mem {α : Type} (k : String) (f : α → String)
    (l : List α) (t : α) (ht : t ∈ l) (hk : f t = k) :
    ∃ u, dictGet k f l = some u ∧ u ∈ l ∧ f u = k := by
  have hmem : t ∈ l.filter (fun t => f t == k) :=
    List.mem_filter.mpr ⟨ht, by simp [hk]⟩
  have hne : l.filter (fun t => f t == k) ≠ [] := List.ne_nil_of_mem hmem
  refine ⟨(l.filter (fun t => f t == k)).getLast hne, ?_, ?_, ?_⟩
  · rw [dictGet, List.getLast?_eq_getLast _ hne]
  · exact (List.mem_filter.mp (List.getLast_mem hne)).1
  · have := (List.mem_filter.mp (List.getLast_mem hne)).2
    simpa using this

/-- The characters before the first `'-'` of a list (all of it when there
is no `'-'`). -/
def antesDelPrimerGuion : List Char → List Char
  | [] => []
  | a :: t => if a == '-' then [] else a :: antesDelPrimerGuion t

/-- Written from the spec's words for the amended C5 key rule: the key
obtained by stripping everything after and including the FIRST `"-"` of
the order number. -/
def clavePorPrimerGuion (s : String) : String :=
  ⟨antesDelPrimerGuion s.data⟩

/-- Written from the spec's words for the original C5 key rule: the key
obtained by stripping everything after and including the LAST `"-"` of
the order number (the number itself when it has no `"-"`). -/
def clavePorUltimoGuion (s : String) : String :=
  if '-' ∈ s.data then ⟨((s.data.reverse.dropWhile (· != '-')).tail).reverse⟩
  else s

theorem splitOnChar_ne_nil (c : Char) (l : List Char) : splitOnChar c l ≠ [] := by
  cases l with
  | nil => simp [splitOnChar]
  | cons a t =>
    rw [splitOnChar]
    by_cases h : (a == c) = true
    · rw [if_pos h]; simp
    · rw [if_neg h]
      cases hs : splitOnChar c t <;> simp

theorem splitOnChar_headD (c : Char) (l : List Char) :
    (splitOnChar c l).headD [] =
      (match l with
       | [] => []
       | a :: t => if a == c then [] else a ::
          (splitOnChar c t).headD []) := by
  cases l with
  | nil => rfl
  | cons a t =>
    rw [splitOnChar]
    by_cases h : (a == c) = true
    · rw [if_pos h]; simp [h]
    · rw [if_neg h]
      simp only [if_neg h]
      cases hs : splitOnChar c t with
      | nil => exact absurd hs (splitOnChar_ne_nil c t)
      | cons x r => simp

/-- The head of a Python `split('-')` is the part before the first `'-'`. -/
theorem splitOnChar_headD_eq_antes (l : List Char) :
    (splitOnChar '-' l).headD [] = antesDelPrimerGuion l := by
  induction l with
  | nil => rfl
  | cons a t ih =>
    rw [splitOnChar_headD, antesDelPrimerGuion]
    by_cases h : (a == '-') = true
    · simp [h]
    · simp only [if_neg h, ih]

theorem splitOnChar_sin_sep (c : Char) (l : List Char) (h : c ∉ l) :
    splitOnChar c l = [l] := by
  induction l with
  | nil => rfl
  | cons a t ih =>
    rw [splitOnChar]
    have hac : ¬((a == c) = true) := by
      simp only [beq_iff_eq]
      rintro rfl
      exact h (List.mem_cons_self a t)
    rw [if_neg hac, ih (fun hm => h (List.mem_cons_of_mem a hm))]

theorem splitOnChar_append (c : Char) (l1 l2 : List Char) (h : c ∉ l1) :
    splitOnChar c (l1 ++ c :: l2) = l1 :: splitOnChar c l2 := by
  induction l1 with
  | nil => simp [splitOnChar]
  | cons a t ih =>
    have hac : ¬((a == c) = true) := by
      simp only [beq_iff_eq]
      rintro rfl
      exact h (List.mem_cons_self a t)
    rw [List.cons_append, splitOnChar, if_neg hac,
      ih (fun hm => h (List.mem_cons_of_mem a hm))]

theorem dropWhile_space_of_digits (m : List Char)
    (hd : ∀ ch ∈ m, ch.isDigit = true) : m.dropWhile (· == ' ') = m := by
  cases m with
  | nil => rfl
  | cons a t =>
    have ha := hd a (List.mem_cons_self a t)
    have : (a == ' ') = false := by
      cases hbe : a == ' '
      · rfl
      · rw [beq_iff_eq] at hbe
        subst hbe
        exact absurd ha (by decide)
    rw [List.dropWhile_cons, this]
    simp

theorem pyInt_digits (l : List Char) (hne : l ≠ [])
    (hd : ∀ ch ∈ l, ch.isDigit = true) : pyInt l = some (digitsVal l) := by
  have h1 : l.dropWhile (· == ' ') = l := dropWhile_space_of_digits l hd
  have h2 : l.reverse.dropWhile (· == ' ') = l.reverse := by
    refine dropWhile_space_of_digits _ (fun ch hch => ?_)
    exact hd ch (List.mem_reverse.mp hch)
  have hplus : (l.headD ' ' == '+') = false := by
    cases l with
    | nil => exact absurd rfl hne
    | cons a t =>
      have ha := hd a (List.mem_cons_self a t)
      show (a == '+') = false
      cases hbe : a == '+'
      · rfl
      · rw [beq_iff_eq] at hbe
        subst hbe
        exact absurd ha (by decide)
  rw [pyInt]
  simp only [h1, h2, List.reverse_reverse, hplus]
  rw [if_neg (show ¬(false = true) by simp)]
  rw [if_pos (show l ≠ [] ∧ l.all (·.isDigit) = true from
    ⟨hne, List.all_eq_true.mpr hd⟩)]

/-- Digits contain no `'-'`. -/
theorem not_mem_dash_of_digits (l : List Char)
    (hd : ∀ ch ∈ l, ch.isDigit = true) : '-' ∉ l := by
  intro hm
  exact absurd (hd '-' hm) (by decide)

/-- String append acts as list append on the character data. -/
theorem data_append (a b : String) : (a ++ b).data = a.data ++ b.data := rfl

/-- String version of the replace-no-occurrence lemma: when `"-1"` does not
occur in `s`, `s.replace('-1', '-2')` is `s` itself. -/
theorem pyReplace12_of_not_hasSub (s : String) (h : hasSub s "-1" = false) :
    pyReplace12 s = s := by
  cases s with
  | mk l =>
    rw [pyReplace12]
    have : reemplazar_1_2 l = l := reemplazar_1_2_of_not_hasSub l (by exact h)
    rw [this]

/-! ### Helper lemmas for the claims -/

/-- With an order record whose status is `"Faturado"` and no record from any
other platform, every branch of the classifier returns `""`. -/
theorem calc_solo_vtex_faturado (v : TransaccionVtex)
    (hst : v.estado = "Faturado") :
    calcular_resultado_cruce (some v) none none none = "" := by
  simp only [calcular_resultado_cruce, hst]
  norm_num
  exact fun h => absurd h (by decide)

/-- Saving a record under an id that is present in the table makes the
subsequent fetch return exactly that record. -/
theorem buscar_guardar (db : RunDB) (id0 : Nat) (r r0 : CruceRec)
    (h : buscarCruce db id0 = some r0) :
    buscarCruce (guardarCruce db id0 r) id0 = some r := by
  induction db with
  | nil => simp [buscarCruce] at h
  | cons p t ih =>
    cases hp : (p.1 == id0) with
    | true =>
      simp only [guardarCruce, List.map_cons, hp, if_true]
      rw [buscarCruce, List.find?_cons_of_pos _ (by simpa using hp)]
      rfl
    | false =>
      rw [buscarCruce, List.find?_cons_of_neg _ (by simp [hp])] at h
      simp only [guardarCruce, List.map_cons, hp, if_false]
      rw [buscarCruce, List.find?_cons_of_neg _ (by simp [hp])]
      exact ih h

/-- Written from the claim's words for C6: the key obtained by substituting
a TRAILING `"-1"` of the key with `"-2"` (the key itself when it does not
end in `"-1"`). -/
def sustituirGuion1Final (s : String) : String :=
  if s.data.reverse.take 2 = ['1', '-'] then
    ⟨(s.data.take (s.data.length - 2)) ++ ['-', '2']⟩
  else s

/-! ### The claims -/

/-- C1 (counterexample): the Key Normalizer fails on `"NOSEPARATOR"`
(missing separator) and, contrary to the claim, the Reconciliation Join
does NOT catch the failure for that order alone: the whole join aborts
with the exception and produces no row for the other, well-formed order
`"100-01"` either. -/
theorem claim_C1_counterexample :
    convertir_pedido_transaccion_payway "NOSEPARATOR" =
      .error PyErr.indexError ∧
    cruzar_transacciones
      [⟨"NOSEPARATOR", "T", none, "Visa", "S", "Faturado"⟩,
       ⟨"100-01", "T2", none, "Visa", "S", "Faturado"⟩] [] [] [] =
      .error PyErr.indexError :=
  ⟨rfl, rfl⟩

/-- C1 (amended): a malformed order number in the driving set is NOT
handled per-order: whenever the normalizer fails on the order number of
any record of the order-platform input, the whole join evaluates to that
(or an earlier) exception and no row is produced for any order. -/
theorem claim_C1_amended (tv : List TransaccionVtex)
    (tp : List TransaccionPayway) (tc : List TransaccionCDP)
    (tj : List TransaccionJanis) (t : TransaccionVtex) (e : PyErr)
    (ht : t ∈ tv)
    (he : convertir_pedido_transaccion_payway t.numero_pedido = .error e) :
    ∃ e2, cruzar_transacciones tv tp tc tj = .error e2 := by
  have hproc : procesarPedido tv tp tc tj t.numero_pedido = .error e := by
    simp only [procesarPedido, he]
  have hmem : t.numero_pedido ∈
      dedupKeys (tv.map TransaccionVtex.numero_pedido) :=
    (dedupKeys_mem_iff _ _).mpr (List.mem_map_of_mem _ ht)
  obtain ⟨e2, h2⟩ := mapExcept_error_of_mem _ _ _ hmem e hproc
  exact ⟨e2, by simpa [cruzar_transacciones] using h2⟩

/-- C1 (witness): on a concrete input containing the malformed order
number `"NOSEPARATOR"`, the join indeed does not return a result list. -/
theorem claim_C1_witness :
    (cruzar_transacciones
      [⟨"NOSEPARATOR", "T", none, "Visa", "S", "Faturado"⟩] [] [] []).isOk
      = false := by
  obtain ⟨e2, h2⟩ := claim_C1_amended
    [⟨"NOSEPARATOR", "T", none, "Visa", "S", "Faturado"⟩] [] [] []
    ⟨"NOSEPARATOR", "T", none, "Visa", "S", "Faturado"⟩ PyErr.indexError
    (by simp) (by rfl)
  rw [h2]
  rfl

/-- C2: on every well-formed input `"{prefix}-{suffix}"` — prefix without
`"-"`, suffix a nonempty run of digits — the Key Normalizer returns
`"{prefix}-{int(suffix)}"`, i.e. the suffix re-rendered as a number
without leading zeros. -/
theorem claim_C2 (p s : String) (hp : '-' ∉ p.data) (hne : s.data ≠ [])
    (hd : ∀ ch ∈ s.data, ch.isDigit = true) :
    convertir_pedido_transaccion_payway (p ++ "-" ++ s) =
      .ok (p ++ "-" ++ Nat.repr (digitsVal s.data)) := by
  obtain ⟨pd⟩ := p
  obtain ⟨sd⟩ := s
  have hdata : (String.mk pd ++ "-" ++ String.mk sd).data = pd ++ '-' :: sd := by
    show (pd ++ ['-']) ++ sd = pd ++ '-' :: sd
    simp
  rw [convertir_pedido_transaccion_payway, hdata]
  rw [splitOnChar_append '-' pd sd hp]
  rw [splitOnChar_sin_sep '-' sd (not_mem_dash_of_digits sd hd)]
  have hget : [pd, sd].get? 1 = some sd := rfl
  rw [hget]
  show (match pyInt sd with
    | none => Except.error PyErr.valueError
    | some n =>
        Except.ok (String.mk ([pd, sd].headD [] ++ '-' :: (Nat.repr n).data))) = _
  rw [pyInt_digits sd hne hd]
  show Except.ok (String.mk (pd ++ '-' :: (Nat.repr (digitsVal sd)).data)) = _
  generalize Nat.repr (digitsVal sd) = r
  obtain ⟨rd⟩ := r
  congr 1
  show String.mk (pd ++ '-' :: rd) = String.mk ((pd ++ ['-']) ++ rd)
  simp

/-- C2 (witness): the three concrete cases named by the spec. -/
theorem claim_C2_witness :
    convertir_pedido_transaccion_payway "X-01" = .ok "X-1" ∧
    convertir_pedido_transaccion_payway "X-10" = .ok "X-10" ∧
    convertir_pedido_transaccion_payway "X-5" = .ok "X-5" :=
  ⟨(claim_C2 "X" "01" (by decide) (by decide) (by decide)).trans (by rfl),
   (claim_C2 "X" "10" (by decide) (by decide) (by decide)).trans (by rfl),
   (claim_C2 "X" "5" (by decide) (by decide) (by decide)).trans (by rfl)⟩

/-- C3 (counterexample): an order-platform record with seller
`"Hogar & Electro"` and status `"Pendiente"`, with no entry in any other
collection, produces a row whose other status fields are all `"N/A"` but
whose `resultado_cruce` is `"Verificar, no facturado"`, not the empty
string — refuting "discrepancy_result equal to the empty string ...
regardless of the order record's category and status". -/
theorem claim_C3_counterexample :
    cruzar_transacciones
      [⟨"E-01", "T1", none, "Visa", "Hogar & Electro", "Pendiente"⟩] [] [] [] =
      .ok [⟨"E-01", none, none, "Visa", "Hogar & Electro", "Pendiente",
            "N/A", "N/A", "N/A", "N/A", "Verificar, no facturado"⟩] ∧
    ("Verificar, no facturado" : String) ≠ "" :=
  ⟨rfl, by decide⟩

/-- C3 (amended): for every order-platform record whose order number finds
no entry in the payment index (under either lookup key), the fulfillment
index, or the secondary-OMS index, the emitted row has all other platform
status fields `"N/A"`; and its `resultado_cruce` is `""` provided the
order's status is `"Faturado"` (for unmatched orders of the electronics or
marketplace categories with other statuses the classifier can return a
non-empty label). -/
theorem claim_C3_amended (tv : List TransaccionVtex)
    (tp : List TransaccionPayway) (tc : List TransaccionCDP)
    (tj : List TransaccionJanis) (pedido conv : String)
    (v : TransaccionVtex) (row : Row)
    (hok : procesarPedido tv tp tc tj pedido = .ok row)
    (hv : dictGet pedido TransaccionVtex.numero_pedido tv = some v)
    (hconv : convertir_pedido_transaccion_payway pedido = .ok conv)
    (hp1 : dictGet conv TransaccionPayway.numero_transaccion tp = none)
    (hp2 : dictGet v.numero_transaccion TransaccionPayway.numero_transaccion tp
      = none)
    (hc : dictGet ⟨(splitOnChar '-' pedido.data).headD []⟩
      TransaccionCDP.numero_pedido tc = none)
    (hj : dictGet pedido TransaccionJanis.numero_pedido tj = none) :
    row.estado_payway = "N/A" ∧ row.estado_payway_2 = "N/A" ∧
    row.estado_cdp = "N/A" ∧ row.estado_janis = "N/A" ∧
    (v.estado = "Faturado" → row.resultado_cruce = "") := by
  simp only [procesarPedido, hconv, hv, hp1, hp2, hc, hj, Except.ok.injEq] at hok
  subst hok
  exact ⟨rfl, rfl, rfl, rfl, fun hst => calc_solo_vtex_faturado v hst⟩

/-- C3 (witness): a concrete unmatched, invoiced order of the marketplace
category: all other status fields are `"N/A"` and the result is `""`. -/
theorem claim_C3_witness :
    Row.estado_payway ⟨"100-01", none, none, "Visa", "SellerX", "Faturado",
      "N/A", "N/A", "N/A", "N/A", ""⟩ = "N/A" ∧
    Row.estado_payway_2 ⟨"100-01", none, none, "Visa", "SellerX", "Faturado",
      "N/A", "N/A", "N/A", "N/A", ""⟩ = "N/A" ∧
    Row.estado_cdp ⟨"100-01", none, none, "Visa", "SellerX", "Faturado",
      "N/A", "N/A", "N/A", "N/A", ""⟩ = "N/A" ∧
    Row.estado_janis ⟨"100-01", none, none, "Visa", "SellerX", "Faturado",
      "N/A", "N/A", "N/A", "N/A", ""⟩ = "N/A" ∧
    Row.resultado_cruce ⟨"100-01", none, none, "Visa", "SellerX", "Faturado",
      "N/A", "N/A", "N/A", "N/A", ""⟩ = "" := by
  obtain ⟨h1, h2, h3, h4, h5⟩ := claim_C3_amended
    [⟨"100-01", "TX", none, "Visa", "SellerX", "Faturado"⟩] [] [] []
    "100-01" "100-1" ⟨"100-01", "TX", none, "Visa", "SellerX", "Faturado"⟩
    ⟨"100-01", none, none, "Visa", "SellerX", "Faturado",
      "N/A", "N/A", "N/A", "N/A", ""⟩
    (by rfl) (by rfl) (by rfl) (by rfl) (by rfl) (by rfl) (by rfl)
  exact ⟨h1, h2, h3, h4, h5 rfl⟩

/-- C4 (counterexample): a record with seller `"Carrefour"` and payment
channel `"MercadoPagoPro"` satisfies both the digital-wallet predicate and
the food predicate at once, so the four category predicates are not
mutually exclusive as unordered predicates: two of the four fire. -/
theorem claim_C4_counterexample :
    condicion_mercadopago
      ⟨"p", "t", none, "MercadoPagoPro", "Carrefour", "Faturado"⟩ = true ∧
    TransaccionVtex.pedido_food
      ⟨"p", "t", none, "MercadoPagoPro", "Carrefour", "Faturado"⟩ = true ∧
    (condicion_mercadopago
        ⟨"p", "t", none, "MercadoPagoPro", "Carrefour", "Faturado"⟩).toNat +
      (TransaccionVtex.pedido_food
        ⟨"p", "t", none, "MercadoPagoPro", "Carrefour", "Faturado"⟩).toNat +
      (TransaccionVtex.pedido_electro
        ⟨"p", "t", none, "MercadoPagoPro", "Carrefour", "Faturado"⟩).toNat +
      (TransaccionVtex.pedido_marketplace
        ⟨"p", "t", none, "MercadoPagoPro", "Carrefour", "Faturado"⟩).toNat
      = 2 := by
  refine ⟨rfl, rfl, ?_⟩
  decide

/-- C4 (amended): the three seller categories food, electronics and
marketplace are mutually exclusive and exhaustive — exactly one fires for
every record; the digital-wallet condition, however, implies the food
predicate (it excludes only electronics and marketplace), so the four
predicates of the claim are disambiguated only by the classifier's
evaluation order, not by mutual exclusivity. -/
theorem claim_C4_amended (v : TransaccionVtex) :
    ((v.pedido_food).toNat + (v.pedido_electro).toNat +
      (v.pedido_marketplace).toNat = 1) ∧
    (condicion_mercadopago v = true → v.pedido_food = true) := by
  constructor
  · rw [TransaccionVtex.pedido_marketplace]
    cases hE : v.pedido_electro with
    | true =>
      have hs : v.seller = "Hogar & Electro" := by
        rw [TransaccionVtex.pedido_electro, beq_iff_eq] at hE
        exact hE
      have hF : v.pedido_food = false := by
        rw [TransaccionVtex.pedido_food, hs]
        decide
      simp [hF]
    | false =>
      cases hF : v.pedido_food <;> simp [hF]
  · intro h
    rw [condicion_mercadopago] at h
    simp only [Bool.and_eq_true, Bool.not_eq_true', Bool.or_eq_false_iff] at h
    obtain ⟨-, hE, hM⟩ := h
    rw [TransaccionVtex.pedido_marketplace, hE] at hM
    simpa using hM

/-- C4 (witness): the digital-wallet implication applied to a concrete
record whose payment channel contains `"MercadoPagoPro"`. -/
theorem claim_C4_witness :
    TransaccionVtex.pedido_food
      ⟨"p", "t", none, "MercadoPagoPro", "Carrefour", "Faturado"⟩ = true :=
  (claim_C4_amended
    ⟨"p", "t", none, "MercadoPagoPro", "Carrefour", "Faturado"⟩).2 (by rfl)

/-- C5 (counterexample): for the order number `"10-20-01"` (more than one
dash), the key prescribed by the claim — everything before the LAST dash —
is `"10-20"`, and a fulfillment record with exactly that key is present,
yet the join leaves the row's fulfillment status `"N/A"`: the join does
not look the record up under the claimed key (it uses the part before the
FIRST dash, `"10"`). -/
theorem claim_C5_counterexample :
    clavePorUltimoGuion "10-20-01" = "10-20" ∧
    dictGet (clavePorUltimoGuion "10-20-01") TransaccionCDP.numero_pedido
      [⟨"10-20", "Finalizado"⟩] = some ⟨"10-20", "Finalizado"⟩ ∧
    cruzar_transacciones
      [⟨"10-20-01", "T", none, "Visa", "Samsung", "Faturado"⟩] []
      [⟨"10-20", "Finalizado"⟩] [] =
      .ok [⟨"10-20-01", none, none, "Visa", "Samsung", "Faturado",
            "N/A", "N/A", "N/A", "N/A", ""⟩] :=
  ⟨rfl, rfl, rfl⟩

/-- C5 (amended): for every order number processed by the join, the
fulfillment record is looked up under the key obtained by stripping
everything after and including the FIRST `"-"` (Python `split('-')[0]`);
for order numbers with a single dash this coincides with the claim's
before-the-last-dash key. -/
theorem claim_C5_amended (tv : List TransaccionVtex)
    (tp : List TransaccionPayway) (tc : List TransaccionCDP)
    (tj : List TransaccionJanis) (pedido : String) (row : Row)
    (hok : procesarPedido tv tp tc tj pedido = .ok row) :
    row.estado_cdp =
      (match dictGet (clavePorPrimerGuion pedido) TransaccionCDP.numero_pedido
          tc with
       | some c => c.estado
       | none => "N/A") := by
  have hkey : (⟨(splitOnChar '-' pedido.data).headD []⟩ : String) =
      clavePorPrimerGuion pedido := by
    rw [clavePorPrimerGuion, splitOnChar_headD_eq_antes]
  cases hconv : convertir_pedido_transaccion_payway pedido with
  | error e => simp [procesarPedido, hconv] at hok
  | ok conv =>
    simp only [procesarPedido, hconv, Except.ok.injEq] at hok
    subst hok
    rw [← hkey]

/-- C5 (witness): the amended key rule evaluated on the multi-dash order
number `"10-20-01"`: the lookup key is `"10"`, the record keyed
`"10-20"` is not found, and the row carries `"N/A"`. -/
theorem claim_C5_witness :
    Row.estado_cdp ⟨"10-20-01", none, none, "Visa", "Samsung", "Faturado",
      "N/A", "N/A", "N/A", "N/A", ""⟩ =
      (match dictGet (clavePorPrimerGuion "10-20-01")
          TransaccionCDP.numero_pedido [⟨"10-20", "Finalizado"⟩] with
       | some c => c.estado
       | none => "N/A") :=
  claim_C5_amended [⟨"10-20-01", "T", none, "Visa", "Samsung", "Faturado"⟩] []
    [⟨"10-20", "Finalizado"⟩] [] "10-20-01"
    ⟨"10-20-01", none, none, "Visa", "Samsung", "Faturado",
      "N/A", "N/A", "N/A", "N/A", ""⟩ (by rfl)

/-- C6 (counterexample): with a primary payment match under the key
`"500-12"`, the claim's trailing-substitution rule would leave the key
unchanged (it does not end in `"-1"`), so the second lookup would return
the primary record (status `"PRIMERA"`); the join instead replaces the
embedded `"-1"` and finds the record keyed `"500-22"` — the row's
secondary payment status is `"SEGUNDA"`. -/
theorem claim_C6_counterexample :
    sustituirGuion1Final "500-12" = "500-12" ∧
    dictGet (sustituirGuion1Final "500-12") TransaccionPayway.numero_transaccion
      [⟨"500-12", "PRIMERA"⟩, ⟨"500-22", "SEGUNDA"⟩] =
      some ⟨"500-12", "PRIMERA"⟩ ∧
    pyReplace12 "500-12" = "500-22" ∧
    procesarPedido [] [⟨"500-12", "PRIMERA"⟩, ⟨"500-22", "SEGUNDA"⟩] [] []
      "500-012" =
      .ok ⟨"500-012", none, none, "N/A", "N/A", "N/A",
            "PRIMERA", "SEGUNDA", "N/A", "N/A", ""⟩ ∧
    ("SEGUNDA" : String) ≠ "PRIMERA" :=
  ⟨rfl, rfl, rfl, rfl, by decide⟩

/-- C6 (amended): whenever a primary payment match is found — via the
normalized key or via the order record's `numero_transaccion` — the join
looks the second payment record up under the key obtained by replacing
EVERY occurrence of the substring `"-1"` with `"-2"` (leftmost,
non-overlapping) in whichever key produced the match; absence of the
second record yields `"N/A"` and the join still succeeds. -/
theorem claim_C6_amended (tv : List TransaccionVtex)
    (tp : List TransaccionPayway) (tc : List TransaccionCDP)
    (tj : List TransaccionJanis) (pedido conv : String)
    (hconv : convertir_pedido_transaccion_payway pedido = .ok conv) :
    (∀ p, dictGet conv TransaccionPayway.numero_transaccion tp = some p →
      (procesarPedido tv tp tc tj pedido).map
          (fun r => (r.estado_payway, r.estado_payway_2)) =
        .ok (p.estado,
          match dictGet (pyReplace12 conv)
              TransaccionPayway.numero_transaccion tp with
          | some q => q.estado
          | none => "N/A")) ∧
    (dictGet conv TransaccionPayway.numero_transaccion tp = none →
      ∀ v, dictGet pedido TransaccionVtex.numero_pedido tv = some v →
      ∀ p, dictGet v.numero_transaccion TransaccionPayway.numero_transaccion tp
        = some p →
      (procesarPedido tv tp tc tj pedido).map
          (fun r => (r.estado_payway, r.estado_payway_2)) =
        .ok (p.estado,
          match dictGet (pyReplace12 v.numero_transaccion)
              TransaccionPayway.numero_transaccion tp with
          | some q => q.estado
          | none => "N/A")) := by
  constructor
  · intro p hp
    simp only [procesarPedido, hconv, hp, Except.map]
  · intro hmiss v hv p hp
    simp only [procesarPedido, hconv, hmiss, hv, hp, Except.map]

/-- C6 (witness): the second-lookup rule applied to the concrete primary
match `"500-12"`: the secondary status comes from the record keyed
`"500-22"`. -/
theorem claim_C6_witness :
    (procesarPedido [] [⟨"500-12", "PRIMERA"⟩, ⟨"500-22", "SEGUNDA"⟩] [] []
        "500-012").map (fun r => (r.estado_payway, r.estado_payway_2)) =
      .ok ("PRIMERA", "SEGUNDA") := by
  have h := (claim_C6_amended [] [⟨"500-12", "PRIMERA"⟩, ⟨"500-22", "SEGUNDA"⟩]
    [] [] "500-012" "500-12" (by rfl)).1 ⟨"500-12", "PRIMERA"⟩ (by rfl)
  exact h.trans (by rfl)

/-- C7: the orchestrator never raises (it is a total function into
`Bool × RunDB`): (a) when the run id is not found it returns `False` and
leaves the table untouched; (b) it returns `True` exactly when the run
exists and no step raised; (c) on any exception after the run was fetched,
when the error-save itself does not fail, the run ends persisted with
status ERROR and the call returns `False` (a failing error-save is
swallowed); (d) on success the run ends COMPLETADO with `fecha_realizado`
set to today. -/
theorem claim_C7 (db : RunDB) (cruce_id hoy : Nat)
    (fB fP fC fK fE : Bool) :
    (buscarCruce db cruce_id = none →
      generar_cruce db cruce_id hoy fB fP fC fK fE = (false, db)) ∧
    ((generar_cruce db cruce_id hoy fB fP fC fK fE).1 = true ↔
      (fB = false ∧ fP = false ∧ fC = false ∧ fK = false ∧
        ∃ r, buscarCruce db cruce_id = some r)) ∧
    (∀ r, buscarCruce db cruce_id = some r → fB = false →
      (fP || fC || fK) = true → fE = false →
      (generar_cruce db cruce_id hoy fB fP fC fK fE).1 = false ∧
      ∃ r2, buscarCruce (generar_cruce db cruce_id hoy fB fP fC fK fE).2
        cruce_id = some r2 ∧ r2.estado = .ERROR) ∧
    (∀ r, buscarCruce db cruce_id = some r → fB = false → fP = false →
      fC = false → fK = false →
      (generar_cruce db cruce_id hoy fB fP fC fK fE).1 = true ∧
      buscarCruce (generar_cruce db cruce_id hoy fB fP fC fK fE).2 cruce_id =
        some ⟨.COMPLETADO, some hoy⟩) := by
  refine ⟨?_, ?_, ?_, ?_⟩
  · intro h
    cases fB <;> simp [generar_cruce, h]
  · cases hb : buscarCruce db cruce_id with
    | none =>
      cases fB <;> cases fP <;> cases fC <;> cases fK <;> cases fE <;>
        simp [generar_cruce, manejarError, hb]
    | some r =>
      cases fB <;> cases fP <;> cases fC <;> cases fK <;> cases fE <;>
        simp [generar_cruce, manejarError, hb]
  · intro r hb hfB hOr hfE
    subst hfB
    subst hfE
    cases fP with
    | true =>
      have hout : generar_cruce db cruce_id hoy false true fC fK false =
          (false, guardarCruce db cruce_id ⟨.ERROR, r.fecha_realizado⟩) := by
        simp [generar_cruce, manejarError, hb]
      rw [hout]
      exact ⟨rfl, ⟨.ERROR, r.fecha_realizado⟩,
        buscar_guardar db cruce_id _ r hb, rfl⟩
    | false =>
      cases fC with
      | true =>
        have hout : generar_cruce db cruce_id hoy false false true fK false =
            (false, guardarCruce
              (guardarCruce db cruce_id ⟨.PROCESANDO, r.fecha_realizado⟩)
              cruce_id ⟨.ERROR, r.fecha_realizado⟩) := by
          simp [generar_cruce, manejarError, hb]
        rw [hout]
        refine ⟨rfl, ⟨.ERROR, r.fecha_realizado⟩, ?_, rfl⟩
        exact buscar_guardar _ cruce_id _ _ (buscar_guardar db cruce_id _ r hb)
      | false =>
        cases fK with
        | true =>
          have hout : generar_cruce db cruce_id hoy false false false true false
              = (false, guardarCruce
                (guardarCruce db cruce_id ⟨.PROCESANDO, r.fecha_realizado⟩)
                cruce_id ⟨.ERROR, some hoy⟩) := by
            simp [generar_cruce, manejarError, hb]
          rw [hout]
          refine ⟨rfl, ⟨.ERROR, some hoy⟩, ?_, rfl⟩
          exact buscar_guardar _ cruce_id _ _
            (buscar_guardar db cruce_id _ r hb)
        | false => cases hOr
  · intro r hb hfB hfP hfC hfK
    subst hfB
    subst hfP
    subst hfC
    subst hfK
    have hout : generar_cruce db cruce_id hoy false false false false fE =
        (true, guardarCruce
          (guardarCruce db cruce_id ⟨.PROCESANDO, r.fecha_realizado⟩)
          cruce_id ⟨.COMPLETADO, some hoy⟩) := by
      simp [generar_cruce, hb]
    rw [hout]
    exact ⟨rfl, buscar_guardar _ cruce_id _ _ (buscar_guardar db cruce_id _ r hb)⟩

/-- C7 (witness): on a one-row table, a body failure persists ERROR and
returns `False`; the failure-free run persists COMPLETADO and returns
`True`; a missing id returns `False` with the table untouched. -/
theorem claim_C7_witness :
    (generar_cruce [(1, ⟨.PENDIENTE, none⟩)] 1 7 false false true false
      false).1 = false ∧
    (generar_cruce [(1, ⟨.PENDIENTE, none⟩)] 1 7 false false false false
      false).1 = true ∧
    buscarCruce (generar_cruce [(1, ⟨.PENDIENTE, none⟩)] 1 7 false false false
      false false).2 1 = some ⟨.COMPLETADO, some 7⟩ ∧
    generar_cruce [(1, ⟨.PENDIENTE, none⟩)] 2 7 false false false false false =
      (false, [(1, ⟨.PENDIENTE, none⟩)]) := by
  have hc := (claim_C7 [(1, ⟨.PENDIENTE, none⟩)] 1 7 false false true false
    false).2.2.1 ⟨.PENDIENTE, none⟩ (by rfl) rfl (by rfl) rfl
  have hd := (claim_C7 [(1, ⟨.PENDIENTE, none⟩)] 1 7 false false false false
    false).2.2.2 ⟨.PENDIENTE, none⟩ (by rfl) rfl rfl rfl rfl
  have ha := (claim_C7 [(1, ⟨.PENDIENTE, none⟩)] 2 7 false false false false
    false).1 (by rfl)
  exact ⟨hc.1, hd.1, hd.2, ha⟩

/-- C8 (counterexample): a payment status that merely CONTAINS the word
`"Vencida"` without being equal to either of the two listed statuses still
makes `estado_no_cobrado` true, refuting the "EXACTLY" part of the
claim. -/
theorem claim_C8_counterexample :
    TransaccionPayway.estado_no_cobrado ⟨"k", "Vencida hace un mes"⟩ = true ∧
    ("Vencida hace un mes" : String) ≠ "Vencida" ∧
    ("Vencida hace un mes" : String) ≠ "Pre autorizada" := by
  refine ⟨rfl, ?_, ?_⟩ <;> decide

/-- C8 (amended): `estado_no_cobrado` is true if and only if the payment
status CONTAINS `"Pre autorizada"` or `"Vencida"` as a substring (exact
equality is a special case, but is not required). -/
theorem claim_C8_amended (t : TransaccionPayway) :
    t.estado_no_cobrado = true ↔
      ((∃ l r, t.estado.data = l ++ "Pre autorizada".data ++ r) ∨
       (∃ l r, t.estado.data = l ++ "Vencida".data ++ r)) := by
  rw [TransaccionPayway.estado_no_cobrado]
  simp only [TransaccionPayway.estados_no_entregados, List.any_cons,
    List.any_nil, Bool.or_false, Bool.or_eq_true]
  rw [hasSub, hasSub, hasSubL_iff, hasSubL_iff]

/-- C9: every row emitted by a successful join is anchored at an
order-platform record of the input: its `numero_pedido` is that record's
key, and its `estado_vtex`, `medio_pago` and `seller` are carried over
from that record — never the absent-record fallback `"N/A"`. -/
theorem claim_C9 (tv : List TransaccionVtex) (tp : List TransaccionPayway)
    (tc : List TransaccionCDP) (tj : List TransaccionJanis)
    (rows : List Row) (row : Row)
    (hok : cruzar_transacciones tv tp tc tj = .ok rows) (hrow : row ∈ rows) :
    ∃ t, t ∈ tv ∧ t.numero_pedido = row.numero_pedido ∧
      row.estado_vtex = t.estado ∧ row.medio_pago = t.medio_pago ∧
      row.seller = t.seller := by
  simp only [cruzar_transacciones] at hok
  obtain ⟨pedido, hped, hproc⟩ := mapExcept_ok_mem _ _ _ hok row hrow
  rw [dedupKeys_mem_iff] at hped
  obtain ⟨t1, ht1, hkey⟩ := List.mem_map.mp hped
  obtain ⟨u, hu, humem, hukey⟩ :=
    dictGet_some_of_mem pedido TransaccionVtex.numero_pedido tv t1 ht1 hkey
  cases hconv : convertir_pedido_transaccion_payway pedido with
  | error e => simp [procesarPedido, hconv] at hproc
  | ok conv =>
    simp only [procesarPedido, hconv, hu, Except.ok.injEq] at hproc
    subst hproc
    exact ⟨u, humem, hukey, rfl, rfl, rfl⟩

/-- C9 (witness): on a one-record input the emitted row's `estado_vtex`
equals the record's `estado`. -/
theorem claim_C9_witness :
    Row.estado_vtex ⟨"100-01", none, none, "Visa", "SellerX", "Faturado",
      "N/A", "N/A", "N/A", "N/A", ""⟩ =
    TransaccionVtex.estado
      ⟨"100-01", "100-01-1", none, "Visa", "SellerX", "Faturado"⟩ := by
  obtain ⟨t, ht, -, hev, -, -⟩ := claim_C9
    [⟨"100-01", "100-01-1", none, "Visa", "SellerX", "Faturado"⟩] [] [] []
    [⟨"100-01", none, none, "Visa", "SellerX", "Faturado",
      "N/A", "N/A", "N/A", "N/A", ""⟩]
    ⟨"100-01", none, none, "Visa", "SellerX", "Faturado",
      "N/A", "N/A", "N/A", "N/A", ""⟩ (by rfl) (by simp)
  have ht2 := List.mem_singleton.mp ht
  exact hev.trans (by rw [ht2])

/-- C10: when the primary payment match is found under a normalized key
that contains no `"-1"` substring, the `replace('-1', '-2')` substitution
leaves the key unchanged, so the second lookup returns the primary record
itself and the row's secondary payment status equals the primary payment
status instead of `"N/A"`. -/
theorem claim_C10 (tv : List TransaccionVtex) (tp : List TransaccionPayway)
    (tc : List TransaccionCDP) (tj : List TransaccionJanis)
    (pedido conv : String) (p : TransaccionPayway)
    (hconv : convertir_pedido_transaccion_payway pedido = .ok conv)
    (hno : hasSub conv "-1" = false)
    (hp : dictGet conv TransaccionPayway.numero_transaccion tp = some p) :
    (procesarPedido tv tp tc tj pedido).map
        (fun r => (r.estado_payway, r.estado_payway_2)) =
      .ok (p.estado, p.estado) := by
  have hrep : pyReplace12 conv = conv := pyReplace12_of_not_hasSub conv hno
  simp only [procesarPedido, hconv, hp, hrep, Except.map]

/-- C10 (witness): the order `"X-02"` normalizes to `"X-2"` (no `"-1"`
inside); with a payment record under that key, both payment status fields
of the row carry its status. -/
theorem claim_C10_witness :
    (procesarPedido [] [⟨"X-2", "Aprobada"⟩] [] [] "X-02").map
        (fun r => (r.estado_payway, r.estado_payway_2)) =
      .ok ("Aprobada", "Aprobada") :=
  claim_C10 [] [⟨"X-2", "Aprobada"⟩] [] [] "X-02" "X-2" ⟨"X-2", "Aprobada"⟩
    (by rfl) (by rfl) (by rfl)

end IndeciBot
